import Mathlib

/-
Verification development for the creai end-to-end test suite.

The suite is a Page Object Model over the Playwright browser driver.
We embed the page-object layer (BasePage, Header, HomePage and their
selector constants) over an explicit model of the driver: a page is a
static list of DOM elements in document order, locators resolve to
sublists of it, and every driver call either returns a value or a
DriverError.  Each page-object operation is embedded as a pure function
returning the ordered trace of driver calls it issues together with its
result.

The driver model follows Playwright's documented locator semantics:
  - getByRole name matching: with exact set to false the given string is
    matched case-insensitively as a substring of the accessible name;
    with exact set to true it must equal the accessible name
    (case-sensitive, whole string);
  - locators are strict: a single-element operation (isVisible, click,
    waitFor) on a locator that resolves to more than one element fails
    with a strict-mode violation;
  - locator.isVisible returns false, without failing, when the locator
    resolves to no element;
  - click and waitFor(visible) auto-wait; on a static page an absent or
    invisible target therefore ends in a timeout error.
-/

namespace Creai

/-- A DOM element as the driver model sees it: its ARIA role, its
accessible name, whether it is currently visible, the CSS selector
strings of this suite that match it (CSS matching is modelled
extensionally), and whether the element lies inside the header
navigation region.  A page is a `List Element` in document order. -/
structure Element where
  role : String
  accName : String
  visible : Bool
  cssSelectors : List String
  inNav : Bool
deriving DecidableEq, Repr

/-- The two selector forms the suite uses: raw CSS strings
(`page.locator`) and role plus accessible-name with an exactness flag
(`page.getByRole`). -/
inductive Selector where
  | css (sel : String)
  | byRole (role : String) (name : String) (exactMatch : Bool)
deriving DecidableEq, Repr

/-- A locator: a selector over the whole page, possibly narrowed by
`.first()` or `.nth(n)`. -/
inductive Locator where
  | all (sel : Selector)
  | first (l : Locator)
  | nth (l : Locator) (n : Nat)
deriving DecidableEq, Repr

/-- Does the first character sequence occur at the start of the second? -/
def seqStarts : List Char → List Char → Bool
  | [], _ => true
  | _ :: _, [] => false
  | a :: as, b :: bs => a == b && seqStarts as bs

/-- Does the first character sequence occur as a contiguous subsequence
of the second? -/
def seqContains (needle : List Char) : List Char → Bool
  | [] => seqStarts needle []
  | c :: t => seqStarts needle (c :: t) || seqContains needle t

/-- Lower-cased character sequence of a string (ASCII lowering, as in
the driver's case-insensitive accessible-name matching). -/
def lowerStr (s : String) : List Char :=
  s.toList.map Char.toLower

/-- Accessible-name matching of the driver model, following the
documented getByRole semantics: with `exactMatch := false` the given
string is matched case-insensitively as a substring of the accessible
name; with `exactMatch := true` it must equal the accessible name. -/
def nameMatches (accName pat : String) (exactMatch : Bool) : Bool :=
  if exactMatch then accName == pat
  else seqContains (lowerStr pat) (lowerStr accName)

/-- Whether one element matches a selector. -/
def selMatches (e : Element) : Selector → Bool
  | Selector.css s => e.cssSelectors.contains s
  | Selector.byRole r n ex => e.role == r && nameMatches e.accName n ex

/-- All elements matching a selector, in document order, paired with
their document-order index. -/
def query (dom : List Element) (sel : Selector) : List (Nat × Element) :=
  dom.enum.filter (fun p => selMatches p.2 sel)

/-- The elements a locator resolves to, in document order. -/
def resolveLoc (dom : List Element) : Locator → List (Nat × Element)
  | Locator.all sel => query dom sel
  | Locator.first l => (resolveLoc dom l).take 1
  | Locator.nth l n => ((resolveLoc dom l).drop n).take 1

/-- Failures a driver call can end in. -/
inductive DriverError where
  | strictViolation
  | timeout
  | failure (msg : String)
deriving DecidableEq, Repr

/-- The load-state milestones of the driver. -/
inductive LoadState where
  | load
  | domcontentloaded
  | networkidle
deriving DecidableEq, Repr

/-- One driver call issued by the page-object layer.  Operations record
the ordered trace of the calls they issue. -/
inductive Event where
  | navigate (url : String)
  | waitLoadState (state : LoadState)
  | probe (loc : Locator)
  | clickAt (loc : Locator)
  | waitVisible (loc : Locator)
  | log (msg : String)
deriving DecidableEq, Repr

/-- Is the event an explicit visibility wait? -/
def Event.isWaitEv : Event → Bool
  | Event.waitVisible _ => true
  | _ => false

/-- locator.isVisible on a static page: false when no element matches,
the element's visibility when exactly one matches, a strict-mode
violation when several match. -/
def isVisibleLoc (dom : List Element) (loc : Locator) : Except DriverError Bool :=
  match resolveLoc dom loc with
  | [] => Except.ok false
  | [p] => Except.ok p.2.visible
  | _ => Except.error DriverError.strictViolation

/-- locator.click on a static page: clicks the unique match once
actionable and returns its document-order index; an absent or invisible
target ends in a timeout, several matches violate strict mode. -/
def clickLoc (dom : List Element) (loc : Locator) : Except DriverError Nat :=
  match resolveLoc dom loc with
  | [] => Except.error DriverError.timeout
  | [p] => if p.2.visible then Except.ok p.1 else Except.error DriverError.timeout
  | _ => Except.error DriverError.strictViolation

/-- locator.waitFor with state visible on a static page. -/
def waitForVisibleLoc (dom : List Element) (loc : Locator) : Except DriverError Unit :=
  match resolveLoc dom loc with
  | [] => Except.error DriverError.timeout
  | [p] => if p.2.visible then Except.ok () else Except.error DriverError.timeout
  | _ => Except.error DriverError.strictViolation

/-- HeaderSelectors.MENU_ITEMS: CSS selector for all navigation links in
the header. -/
def MENU_ITEMS : String := "header nav a"

namespace HomePageSelectors

/-- Selector for the company logo container. -/
def LOGO : String := ".navbar11_container"

/-- Selector for the contact button: role link, name Contact, exact. -/
def CONTACT_BUTTON : Selector := Selector.byRole "link" "Contact" true

/-- Selector for the main navigation menu container. -/
def NAVIGATION_MENU : String := ".navbar11_menu-elements"

/-- Selector for the clients/partners logo section. -/
def CLIENTS : String := ".logo3_component"

/-- Selector for the success stories carousel. -/
def SUCCESS_STORIES : String := "div[role=\"list\"].swiper-wrapper.w-dyn-items"

/-- Selector for the cookie consent dialog accept button. -/
def COOKIE_ACCEPT_BUTTON : String := "#CybotCookiebotDialogBodyLevelButtonLevelOptinAllowAll"

/-- Selector for the about us link. -/
def ABOUT_US : String := "a[href=\"/about-us\"]"

/-- Selector for the knowledge hub link. -/
def KNOWLEDGE_HUB : String := "a[href=\"/knowledge-hub\"]"

/-- Selector for the menu button: role button, name menu, exact. -/
def MENU_BUTTON : Selector := Selector.byRole "button" "menu" true

end HomePageSelectors

/-- The argument of Header.clickMenuItem: a menu item text or a
zero-based index, mirroring the string-or-number union of the source. -/
inductive MenuId where
  | byIndex (n : Nat)
  | byText (s : String)
deriving DecidableEq, Repr

/-- Header.menuItems: page.locator(MENU_ITEMS). -/
def Header.menuItems : Locator := Locator.all (Selector.css MENU_ITEMS)

/-- The hamburger probe of Header.clickMenuItem:
page.getByRole(button, name menu, exact false). -/
def Header.menuButton : Locator :=
  Locator.all (Selector.byRole "button" "menu" false)

/-- The locator of the index branch: this.menuItems.nth(n). -/
def Header.menuItemAt (n : Nat) : Locator := Locator.nth Header.menuItems n

/-- The locator of the text branch:
page.getByRole(link, name s, exact false).first(). -/
def Header.textLink (s : String) : Locator :=
  Locator.first (Locator.all (Selector.byRole "link" s false))

/-- The mobile-menu handling at the start of Header.clickMenuItem: await
the hamburger visibility probe and, when it reports visible, click the
hamburger.  Returns the trace of issued calls and the error, if any, of
an awaited call (errors of both calls propagate: neither is wrapped). -/
def Header.mobileMenuStep (dom : List Element) : List Event × Option DriverError :=
  match isVisibleLoc dom Header.menuButton with
  | Except.error e => ([Event.probe Header.menuButton], some e)
  | Except.ok true =>
    match clickLoc dom Header.menuButton with
    | Except.error e =>
      ([Event.probe Header.menuButton, Event.clickAt Header.menuButton], some e)
    | Except.ok _ =>
      ([Event.probe Header.menuButton, Event.clickAt Header.menuButton], none)
  | Except.ok false => ([Event.probe Header.menuButton], none)

/-- Header.clickMenuItem: the hamburger step, then either a direct click
of the nth menu item (index branch), or a whole-page first-link lookup
by accessible name followed by a visibility wait and a click (text
branch).  Returns the call trace and the clicked element's
document-order index (or the first propagated error). -/
def Header.clickMenuItem (dom : List Element) (nameOrIndex : MenuId) :
    List Event × Except DriverError Nat :=
  match (Header.mobileMenuStep dom).2 with
  | some e => ((Header.mobileMenuStep dom).1, Except.error e)
  | none =>
    match nameOrIndex with
    | MenuId.byIndex n =>
      ((Header.mobileMenuStep dom).1 ++ [Event.clickAt (Header.menuItemAt n)],
        clickLoc dom (Header.menuItemAt n))
    | MenuId.byText s =>
      match waitForVisibleLoc dom (Header.textLink s) with
      | Except.error e =>
        ((Header.mobileMenuStep dom).1 ++ [Event.waitVisible (Header.textLink s)],
          Except.error e)
      | Except.ok _ =>
        ((Header.mobileMenuStep dom).1 ++
            [Event.waitVisible (Header.textLink s),
              Event.clickAt (Header.textLink s)],
          clickLoc dom (Header.textLink s))

/-- The cookie-consent accept-button locator of BasePage.goto. -/
def cookieButtonLoc : Locator :=
  Locator.all (Selector.css HomePageSelectors.COOKIE_ACCEPT_BUTTON)

/-- The message BasePage.goto logs when the consent step fails. -/
def consentLogMsg : String :=
  "Cookie consent modal not found or already dismissed"

/-- The consent-dismissal block of BasePage.goto: a try block awaiting
cookieButton.isVisible() and then cookieButton.click(), with every error
of either call caught and logged.  An error of the probe aborts the
block before the click is attempted; the probe's boolean is discarded,
so the click is attempted whatever the probe reported. -/
def BasePage.consentAttempt (dom : List Element) : List Event :=
  match isVisibleLoc dom cookieButtonLoc with
  | Except.error _ => [Event.probe cookieButtonLoc, Event.log consentLogMsg]
  | Except.ok _ =>
    match clickLoc dom cookieButtonLoc with
    | Except.error _ =>
      [Event.probe cookieButtonLoc, Event.clickAt cookieButtonLoc,
        Event.log consentLogMsg]
    | Except.ok _ => [Event.probe cookieButtonLoc, Event.clickAt cookieButtonLoc]

/-- Outcomes the external driver supplies to one BasePage.goto call: the
outcome of page.goto(url), the outcome of
page.waitForLoadState(domcontentloaded), and the page contents the
consent-step queries run against. -/
structure DriverBehavior where
  navResult : Except DriverError Unit
  waitResult : Except DriverError Unit
  dom : List Element
deriving Repr

/-- BasePage.goto: navigate to the page url, wait for the
domcontentloaded milestone, then run the consent-dismissal try block.
Errors of the first two steps propagate; the consent block never
contributes an error. -/
def BasePage.goto (beh : DriverBehavior) (url : String) :
    List Event × Except DriverError Unit :=
  match beh.navResult with
  | Except.error e => ([Event.navigate url], Except.error e)
  | Except.ok _ =>
    match beh.waitResult with
    | Except.error e =>
      ([Event.navigate url, Event.waitLoadState LoadState.domcontentloaded],
        Except.error e)
    | Except.ok _ =>
      (Event.navigate url :: Event.waitLoadState LoadState.domcontentloaded ::
          BasePage.consentAttempt beh.dom,
        Except.ok ())

/-- BasePage.waitForLoadState: a plain pass-through of the requested
milestone to the driver, defaulting to load. -/
def BasePage.waitForLoadState (state : LoadState := LoadState.load) : List Event :=
  [Event.waitLoadState state]

/-- HomePage.logo: page.locator(LOGO). -/
def HomePage.logo : Locator := Locator.all (Selector.css HomePageSelectors.LOGO)

/-- HomePage.contactButton: page.getByRole(CONTACT_BUTTON). -/
def HomePage.contactButton : Locator := Locator.all HomePageSelectors.CONTACT_BUTTON

/-- HomePage.navigationMenu: page.locator(NAVIGATION_MENU). -/
def HomePage.navigationMenu : Locator :=
  Locator.all (Selector.css HomePageSelectors.NAVIGATION_MENU)

/-- HomePage.clients: page.locator(CLIENTS). -/
def HomePage.clients : Locator := Locator.all (Selector.css HomePageSelectors.CLIENTS)

/-- HomePage.successStories: page.locator(SUCCESS_STORIES). -/
def HomePage.successStories : Locator :=
  Locator.all (Selector.css HomePageSelectors.SUCCESS_STORIES)

/-- HomePage.aboutUs: page.locator(ABOUT_US). -/
def HomePage.aboutUs : Locator := Locator.all (Selector.css HomePageSelectors.ABOUT_US)

/-- HomePage.knowledgeHub: page.locator(KNOWLEDGE_HUB). -/
def HomePage.knowledgeHub : Locator :=
  Locator.all (Selector.css HomePageSelectors.KNOWLEDGE_HUB)

/-- HomePage.menuButton: page.getByRole(MENU_BUTTON), note exact true
here unlike the Header's hamburger probe. -/
def HomePage.menuButton : Locator := Locator.all HomePageSelectors.MENU_BUTTON

/-- HomePage.isLogoVisible: this.logo.first().isVisible(). -/
def HomePage.isLogoVisible (dom : List Element) : Except DriverError Bool :=
  isVisibleLoc dom (Locator.first HomePage.logo)

/-- HomePage.isContactButtonVisible: this.contactButton.first().isVisible(). -/
def HomePage.isContactButtonVisible (dom : List Element) : Except DriverError Bool :=
  isVisibleLoc dom (Locator.first HomePage.contactButton)

/-- HomePage.isNavigationMenuVisible: this.navigationMenu.first().isVisible(). -/
def HomePage.isNavigationMenuVisible (dom : List Element) : Except DriverError Bool :=
  isVisibleLoc dom (Locator.first HomePage.navigationMenu)

/-- HomePage.isClientsVisible: this.clients.first().isVisible(). -/
def HomePage.isClientsVisible (dom : List Element) : Except DriverError Bool :=
  isVisibleLoc dom (Locator.first HomePage.clients)

/-- HomePage.isSuccessStoriesVisible: this.successStories.first().isVisible(). -/
def HomePage.isSuccessStoriesVisible (dom : List Element) : Except DriverError Bool :=
  isVisibleLoc dom (Locator.first HomePage.successStories)

/-- HomePage.isKnowledgeHubVisible: this.knowledgeHub.first().isVisible(). -/
def HomePage.isKnowledgeHubVisible (dom : List Element) : Except DriverError Bool :=
  isVisibleLoc dom (Locator.first HomePage.knowledgeHub)

/-- HomePage.isAboutUsVisible: this.aboutUs.first().isVisible(). -/
def HomePage.isAboutUsVisible (dom : List Element) : Except DriverError Bool :=
  isVisibleLoc dom (Locator.first HomePage.aboutUs)

/-- HomePage.isMenuButtonVisible: awaits this.menuButton.isVisible(),
discards the result, and returns a second this.menuButton.isVisible();
no .first() narrowing, unlike every other probe. -/
def HomePage.isMenuButtonVisible (dom : List Element) : Except DriverError Bool :=
  match isVisibleLoc dom HomePage.menuButton with
  | Except.error e => Except.error e
  | Except.ok _ => isVisibleLoc dom HomePage.menuButton

/-- The visibility of the first element a locator resolves to; false
when it resolves to none. -/
def firstVisible (dom : List Element) (l : Locator) : Bool :=
  match (resolveLoc dom l).head? with
  | none => false
  | some p => p.2.visible

/-- The whole-page candidate list of the text branch of
Header.clickMenuItem: all links, in document order, whose accessible
name matches the given text under the driver's non-exact matching,
regardless of visibility. -/
def linkMatches (dom : List Element) (s : String) : List (Nat × Element) :=
  query dom (Selector.byRole "link" s false)

/-- Modelled from the spec: the search the spec describes for the text
branch, restricted to the navigation region, returning the
document-order index of the first link of the region whose accessible
name matches the text. -/
def navScopedFirstLink (dom : List Element) (s : String) : Option Nat :=
  (((query dom (Selector.byRole "link" s false)).filter
      (fun p => p.2.inNav)).head?).map Prod.fst

/-- Modelled from the spec: case-sensitive substring containment, the
matching relation the spec ascribes to the text branch. -/
def containsCaseSensitive (hay pat : String) : Bool :=
  seqContains pat.toList hay.toList

/-- Modelled from the spec: the candidate links under the spec's
case-sensitive reading of the text match, in document order. -/
def caseSensitiveLinkMatches (dom : List Element) (s : String) : List (Nat × Element) :=
  dom.enum.filter
    (fun p => p.2.role == "link" && containsCaseSensitive p.2.accName s)

/-- A page whose only link accessibly named About us sits outside the
header navigation region, for instance in the footer. -/
def c1Dom : List Element :=
  [{ role := "link", accName := "About us", visible := true,
     cssSelectors := [HomePageSelectors.ABOUT_US], inNav := false }]

/-- A navigation with two visible links whose accessible names differ
only in letter case, both containing the menu text up to case. -/
def c2Dom : List Element :=
  [{ role := "link", accName := "ABOUT US", visible := true,
     cssSelectors := [MENU_ITEMS], inNav := true },
   { role := "link", accName := "About us", visible := true,
     cssSelectors := [MENU_ITEMS], inNav := true }]

theorem isVisibleLoc_first_eq (dom : List Element) (l : Locator) :
    isVisibleLoc dom (Locator.first l) = Except.ok (firstVisible dom l) := by
  unfold isVisibleLoc firstVisible
  cases h : resolveLoc dom l with
  | nil => simp [resolveLoc, h]
  | cons p t => simp [resolveLoc, h]

theorem clickLoc_first_all (dom : List Element) (sel : Selector) (i : Nat)
    (h : clickLoc dom (Locator.first (Locator.all sel)) = Except.ok i) :
    (query dom sel).head?.map Prod.fst = some i := by
  unfold clickLoc at h
  rw [show resolveLoc dom (Locator.first (Locator.all sel)) = (query dom sel).take 1
    from rfl] at h
  cases hq : query dom sel with
  | nil => rw [hq] at h; simp at h
  | cons p t =>
    rw [hq] at h
    simp only [List.take_succ_cons, List.take_zero] at h
    split at h
    · cases h; simp
    · cases h

/-- C1: on a page whose only link named About us lies outside the
navigation region, Header.clickMenuItem resolves and clicks that
outside link, although the navigation-scoped search the spec and the
code's own comments describe finds no candidate at all: the text branch
searches the whole document, not the navigation region. -/
theorem clickMenuItem_text_escapes_nav :
    (Header.clickMenuItem c1Dom (MenuId.byText "About us")).2 = Except.ok 0 ∧
    (c1Dom.get? 0).map Element.inNav = some false ∧
    navScopedFirstLink c1Dom "About us" = none :=
  ⟨rfl, rfl, rfl⟩

/-- C2 counterexample: with two visible links named ABOUT US and
About us, in that document order, clickMenuItem with the text About us
clicks the first link, whose accessible name does not contain the
identifier as a case-sensitive substring; the first case-sensitive match
is the second link.  The driver's non-exact name matching is
case-insensitive, so the claim's case-sensitive reading picks the wrong
element. -/
theorem clickMenuItem_text_case_sensitivity_refuted :
    (Header.clickMenuItem c2Dom (MenuId.byText "About us")).2 = Except.ok 0 ∧
    (c2Dom.get? 0).map (fun e => containsCaseSensitive e.accName "About us") =
      some false ∧
    (caseSensitiveLinkMatches c2Dom "About us").head?.map Prod.fst = some 1 :=
  ⟨rfl, rfl, rfl⟩

/-- C2 amended: whenever the text branch of Header.clickMenuItem
succeeds and reports element i clicked, i is the first link in document
order whose accessible name contains the identifier as a
case-insensitive substring, the candidate list being blind to
visibility; and the trace ends with the explicit visibility wait on the
first-match locator immediately followed by its click. -/
theorem clickMenuItem_text_takes_first_match (dom : List Element) (s : String)
    (i : Nat) (h : (Header.clickMenuItem dom (MenuId.byText s)).2 = Except.ok i) :
    (linkMatches dom s).head?.map Prod.fst = some i ∧
    ∃ pre, (Header.clickMenuItem dom (MenuId.byText s)).1 =
      pre ++ [Event.waitVisible (Header.textLink s),
        Event.clickAt (Header.textLink s)] := by
  unfold Header.clickMenuItem at h ⊢
  cases hs : (Header.mobileMenuStep dom).2 with
  | some e => rw [hs] at h; simp at h
  | none =>
    rw [hs] at h
    dsimp only at h ⊢
    cases hw : waitForVisibleLoc dom (Header.textLink s) with
    | error e => rw [hw] at h; simp at h
    | ok u =>
      rw [hw] at h
      refine ⟨clickLoc_first_all dom _ i h, ⟨(Header.mobileMenuStep dom).1, ?_⟩⟩
      simp [hw]

/-- C2 witness: the amended statement evaluated on the concrete
two-link navigation. -/
theorem clickMenuItem_text_takes_first_match_witness :
    (linkMatches c2Dom "About us").head?.map Prod.fst = some 0 ∧
    ∃ pre, (Header.clickMenuItem c2Dom (MenuId.byText "About us")).1 =
      pre ++ [Event.waitVisible (Header.textLink "About us"),
        Event.clickAt (Header.textLink "About us")] :=
  clickMenuItem_text_takes_first_match c2Dom "About us" 0 rfl

/-- Whether the consent-dismissal block of BasePage.goto fails
internally: its visibility probe or its click ends in a driver error. -/
def consentStepFails (dom : List Element) : Bool :=
  match isVisibleLoc dom cookieButtonLoc with
  | Except.error _ => true
  | Except.ok _ =>
    match clickLoc dom cookieButtonLoc with
    | Except.error _ => true
    | Except.ok _ => false

/-- C3: the outcome of BasePage.goto is decided by the navigation and
load-wait steps alone, for every behavior of the consent element: a
navigation error propagates unchanged, and when navigation and the
load wait succeed, goto succeeds whatever the consent queries do
(absent element, invisible element, several elements); moreover any
internal consent failure is logged. -/
theorem goto_consent_never_raises (beh : DriverBehavior) (url : String) :
    ((BasePage.goto beh url).2 =
      match beh.navResult with
      | Except.error e => Except.error e
      | Except.ok _ => beh.waitResult) ∧
    (beh.navResult = Except.ok () → beh.waitResult = Except.ok () →
      consentStepFails beh.dom = true →
      Event.log consentLogMsg ∈ (BasePage.goto beh url).1) := by
  unfold BasePage.goto
  cases hn : beh.navResult with
  | error e => exact ⟨rfl, by intro h1; simp at h1⟩
  | ok u =>
    cases hw : beh.waitResult with
    | error e =>
      refine ⟨rfl, ?_⟩
      intro _ h2
      simp at h2
    | ok v =>
      refine ⟨rfl, ?_⟩
      intro _ _ hc
      unfold consentStepFails at hc
      unfold BasePage.consentAttempt
      cases hv : isVisibleLoc beh.dom cookieButtonLoc with
      | error e => simp
      | ok b =>
        rw [hv] at hc
        cases hk : clickLoc beh.dom cookieButtonLoc with
        | error e => simp
        | ok j => rw [hk] at hc; cases hc

/-- A healthy fresh session on an empty page: navigation and the load
wait succeed and the consent banner is absent. -/
def behEmpty : DriverBehavior :=
  { navResult := Except.ok (), waitResult := Except.ok (), dom := [] }

/-- C3 witness: a session where navigation and the load wait succeed
and the consent banner is absent; goto completes without raising and
logs the consent message. -/
theorem goto_consent_never_raises_witness :
    (BasePage.goto behEmpty "/").2 = Except.ok () ∧
    Event.log consentLogMsg ∈ (BasePage.goto behEmpty "/").1 := by
  have h := goto_consent_never_raises behEmpty "/"
  exact ⟨h.1, h.2 rfl rfl rfl⟩

/-- C7: under a successful navigation and load wait, the trace of
BasePage.goto is exactly the navigation call, then the domcontentloaded
load-state wait, then the consent-dismissal block, whose first call is
the consent visibility probe; nothing is skipped or reordered. -/
theorem goto_three_steps (beh : DriverBehavior) (url : String)
    (h1 : beh.navResult = Except.ok ()) (h2 : beh.waitResult = Except.ok ()) :
    (BasePage.goto beh url).1 =
      Event.navigate url :: Event.waitLoadState LoadState.domcontentloaded ::
        BasePage.consentAttempt beh.dom ∧
    (BasePage.consentAttempt beh.dom).head? = some (Event.probe cookieButtonLoc) := by
  constructor
  · unfold BasePage.goto
    rw [h1, h2]
  · unfold BasePage.consentAttempt
    cases hv : isVisibleLoc beh.dom cookieButtonLoc with
    | error e => rfl
    | ok b =>
      cases hk : clickLoc beh.dom cookieButtonLoc with
      | error e => rfl
      | ok j => rfl

/-- C7 witness: the three-step trace on a concrete successful session
with an empty page. -/
theorem goto_three_steps_witness :
    (BasePage.goto behEmpty "/").1 =
      Event.navigate "/" :: Event.waitLoadState LoadState.domcontentloaded ::
        BasePage.consentAttempt [] ∧
    (BasePage.consentAttempt []).head? = some (Event.probe cookieButtonLoc) :=
  goto_three_steps behEmpty "/" rfl rfl

/-- C9: whenever the consent visibility probe returns a boolean, the
consent click is attempted regardless of that boolean: the probe's
result is discarded, the click call appears in the trace even when the
probe reported the button not visible, and goto still completes
successfully thanks to the surrounding catch. -/
theorem goto_click_unconditional (beh : DriverBehavior) (url : String) (b : Bool)
    (h1 : beh.navResult = Except.ok ()) (h2 : beh.waitResult = Except.ok ())
    (h3 : isVisibleLoc beh.dom cookieButtonLoc = Except.ok b) :
    Event.clickAt cookieButtonLoc ∈ (BasePage.goto beh url).1 ∧
    (BasePage.goto beh url).2 = Except.ok () := by
  unfold BasePage.goto
  rw [h1, h2]
  refine ⟨?_, rfl⟩
  unfold BasePage.consentAttempt
  rw [h3]
  cases hk : clickLoc beh.dom cookieButtonLoc with
  | error e => simp
  | ok j => simp

/-- A page holding only the cookie consent accept button, present in
the DOM but not visible. -/
def c9Dom : List Element :=
  [{ role := "button", accName := "Allow all", visible := false,
     cssSelectors := [HomePageSelectors.COOKIE_ACCEPT_BUTTON], inNav := false }]

/-- A successful session on the page holding only the invisible
consent button. -/
def behConsentHidden : DriverBehavior :=
  { navResult := Except.ok (), waitResult := Except.ok (), dom := c9Dom }

/-- C9 witness: with the consent button present but invisible the probe
returns false, yet the click is attempted and goto succeeds. -/
theorem goto_click_unconditional_witness :
    Event.clickAt cookieButtonLoc ∈ (BasePage.goto behConsentHidden "/").1 ∧
    (BasePage.goto behConsentHidden "/").2 = Except.ok () :=
  goto_click_unconditional behConsentHidden "/" false rfl rfl rfl

/-- C8: BasePage.waitForLoadState issues exactly one driver call
carrying the requested milestone unchanged, for each of the three
milestones, and the call made without an argument carries the load
milestone. -/
theorem waitForLoadState_passthrough :
    (∀ s : LoadState, BasePage.waitForLoadState s = [Event.waitLoadState s]) ∧
    BasePage.waitForLoadState = [Event.waitLoadState LoadState.load] :=
  ⟨fun _ => rfl, rfl⟩

theorem head?_append_of_head? {α : Type} {l t : List α} {a : α}
    (h : l.head? = some a) : (l ++ t).head? = some a := by
  cases l with
  | nil => cases h
  | cons b r => simpa using h

theorem mem_append_iff_of_not_mem {α : Type} (a : α) (l t : List α)
    (hnt : a ∉ t) : (a ∈ l ++ t) ↔ a ∈ l := by
  simp [List.mem_append, hnt]

theorem mobileMenuStep_spec (dom : List Element) :
    (Header.mobileMenuStep dom).1.head? = some (Event.probe Header.menuButton) ∧
    (Event.clickAt Header.menuButton ∈ (Header.mobileMenuStep dom).1 ↔
      isVisibleLoc dom Header.menuButton = Except.ok true) ∧
    (Header.mobileMenuStep dom).1.all (fun e => !e.isWaitEv) = true := by
  unfold Header.mobileMenuStep
  cases hv : isVisibleLoc dom Header.menuButton with
  | error e => simp [Event.isWaitEv]
  | ok b =>
    cases b with
    | false => simp [Event.isWaitEv]
    | true =>
      cases hc : clickLoc dom Header.menuButton with
      | error e => simp [Event.isWaitEv]
      | ok j => simp [Event.isWaitEv]

/-- C4: on every call of Header.clickMenuItem, for either addressing
mode, the first driver call of the trace is the hamburger visibility
probe, and the hamburger click appears in the trace exactly when that
probe reports the control visible. -/
theorem clickMenuItem_probes_hamburger (dom : List Element) (x : MenuId) :
    (Header.clickMenuItem dom x).1.head? = some (Event.probe Header.menuButton) ∧
    (Event.clickAt Header.menuButton ∈ (Header.clickMenuItem dom x).1 ↔
      isVisibleLoc dom Header.menuButton = Except.ok true) := by
  obtain ⟨h1, h2, h3⟩ := mobileMenuStep_spec dom
  unfold Header.clickMenuItem
  cases hs : (Header.mobileMenuStep dom).2 with
  | some e => exact ⟨h1, h2⟩
  | none =>
    cases x with
    | byIndex n =>
      have hnt : Event.clickAt Header.menuButton ∉
          [Event.clickAt (Header.menuItemAt n)] := by
        simp [Header.menuItemAt, Header.menuButton, Header.menuItems]
      exact ⟨head?_append_of_head? h1,
        by rw [mem_append_iff_of_not_mem _ _ _ hnt]; exact h2⟩
    | byText s =>
      dsimp only
      cases hw : waitForVisibleLoc dom (Header.textLink s) with
      | error e =>
        dsimp only
        have hnt : Event.clickAt Header.menuButton ∉
            [Event.waitVisible (Header.textLink s)] := by
          simp
        exact ⟨head?_append_of_head? h1,
          by rw [mem_append_iff_of_not_mem _ _ _ hnt]; exact h2⟩
      | ok u =>
        dsimp only
        have hnt : Event.clickAt Header.menuButton ∉
            [Event.waitVisible (Header.textLink s),
              Event.clickAt (Header.textLink s)] := by
          simp [Header.textLink, Header.menuButton]
        exact ⟨head?_append_of_head? h1,
          by rw [mem_append_iff_of_not_mem _ _ _ hnt]; exact h2⟩

theorem clickLoc_nth_all (dom : List Element) (sel : Selector) (n i : Nat)
    (h : clickLoc dom (Locator.nth (Locator.all sel) n) = Except.ok i) :
    ((query dom sel).drop n).head?.map Prod.fst = some i := by
  unfold clickLoc at h
  rw [show resolveLoc dom (Locator.nth (Locator.all sel) n) =
    ((query dom sel).drop n).take 1 from rfl] at h
  cases hq : (query dom sel).drop n with
  | nil => rw [hq] at h; simp at h
  | cons p t =>
    rw [hq] at h
    simp only [List.take_succ_cons, List.take_zero] at h
    split at h
    · cases h; simp
    · cases h

/-- C6: the index branch of Header.clickMenuItem issues no visibility
wait at all, and when it succeeds reporting element i clicked, i is the
nth element (zero based) of the menu-items collection that MENU_ITEMS
scopes to the header navigation; for n = 0 this is the first element of
that collection, whatever its text. -/
theorem clickMenuItem_index_direct (dom : List Element) (n : Nat) :
    (Header.clickMenuItem dom (MenuId.byIndex n)).1.all (fun e => !e.isWaitEv) = true ∧
    (∀ i, (Header.clickMenuItem dom (MenuId.byIndex n)).2 = Except.ok i →
      ((query dom (Selector.css MENU_ITEMS)).drop n).head?.map Prod.fst = some i ∧
      (n = 0 → (query dom (Selector.css MENU_ITEMS)).head?.map Prod.fst = some i)) := by
  obtain ⟨h1, h2, h3⟩ := mobileMenuStep_spec dom
  unfold Header.clickMenuItem
  cases hs : (Header.mobileMenuStep dom).2 with
  | some e =>
    refine ⟨h3, ?_⟩
    intro i hi
    simp at hi
  | none =>
    constructor
    · rw [List.all_append, h3]
      simp [Event.isWaitEv]
    · intro i hi
      dsimp only at hi
      have hmain := clickLoc_nth_all dom (Selector.css MENU_ITEMS) n i hi
      refine ⟨hmain, ?_⟩
      intro hn
      rw [hn] at hmain
      simpa using hmain

/-- A navigation bar with two visible menu links. -/
def c6Dom : List Element :=
  [{ role := "link", accName := "Clients", visible := true,
     cssSelectors := [MENU_ITEMS], inNav := true },
   { role := "link", accName := "Success stories", visible := true,
     cssSelectors := [MENU_ITEMS], inNav := true }]

/-- C6 witness: on the concrete two-link navigation, clickMenuItem 0
issues no visibility wait and clicks the first element of the
menu-items collection. -/
theorem clickMenuItem_index_direct_witness :
    (Header.clickMenuItem c6Dom (MenuId.byIndex 0)).1.all (fun e => !e.isWaitEv) = true ∧
    (query c6Dom (Selector.css MENU_ITEMS)).head?.map Prod.fst = some 0 := by
  have h := clickMenuItem_index_direct c6Dom 0
  exact ⟨h.1, (h.2 0 rfl).2 rfl⟩

/-- A page with two visible buttons both accessibly named menu. -/
def c5Dom : List Element :=
  [{ role := "button", accName := "menu", visible := true,
     cssSelectors := [], inNav := false },
   { role := "button", accName := "menu", visible := true,
     cssSelectors := [], inNav := false }]

/-- C5 counterexample: on a page with two visible elements matching the
menu-button descriptor, HomePage.isMenuButtonVisible fails with the
driver's strict-mode violation instead of returning the visibility of
the first matching element, so not every probe takes the first match
and returns a boolean. -/
theorem isMenuButtonVisible_not_first :
    HomePage.isMenuButtonVisible c5Dom = Except.error DriverError.strictViolation ∧
    isVisibleLoc c5Dom (Locator.first HomePage.menuButton) = Except.ok true :=
  ⟨rfl, rfl⟩

/-- C5 amended: the seven probes other than isMenuButtonVisible each
return, without ever failing, the visibility of the first element their
descriptor resolves to, false when it resolves to none;
isMenuButtonVisible, which does not narrow to the first match, still
returns false without failing when no element matches its
descriptor. -/
theorem probes_first_and_total (dom : List Element) :
    HomePage.isLogoVisible dom = Except.ok (firstVisible dom HomePage.logo) ∧
    HomePage.isContactButtonVisible dom =
      Except.ok (firstVisible dom HomePage.contactButton) ∧
    HomePage.isNavigationMenuVisible dom =
      Except.ok (firstVisible dom HomePage.navigationMenu) ∧
    HomePage.isClientsVisible dom = Except.ok (firstVisible dom HomePage.clients) ∧
    HomePage.isSuccessStoriesVisible dom =
      Except.ok (firstVisible dom HomePage.successStories) ∧
    HomePage.isKnowledgeHubVisible dom =
      Except.ok (firstVisible dom HomePage.knowledgeHub) ∧
    HomePage.isAboutUsVisible dom = Except.ok (firstVisible dom HomePage.aboutUs) ∧
    (resolveLoc dom HomePage.menuButton = [] →
      HomePage.isMenuButtonVisible dom = Except.ok false) := by
  refine ⟨isVisibleLoc_first_eq dom _, isVisibleLoc_first_eq dom _,
    isVisibleLoc_first_eq dom _, isVisibleLoc_first_eq dom _,
    isVisibleLoc_first_eq dom _, isVisibleLoc_first_eq dom _,
    isVisibleLoc_first_eq dom _, ?_⟩
  intro hres
  have hv : isVisibleLoc dom HomePage.menuButton = Except.ok false := by
    unfold isVisibleLoc
    rw [hres]
  unfold HomePage.isMenuButtonVisible
  rw [hv]

/-- C5 witness: on the empty page every probe returns false and none
fails. -/
theorem probes_first_and_total_witness :
    HomePage.isLogoVisible [] = Except.ok false ∧
    HomePage.isContactButtonVisible [] = Except.ok false ∧
    HomePage.isNavigationMenuVisible [] = Except.ok false ∧
    HomePage.isClientsVisible [] = Except.ok false ∧
    HomePage.isSuccessStoriesVisible [] = Except.ok false ∧
    HomePage.isKnowledgeHubVisible [] = Except.ok false ∧
    HomePage.isAboutUsVisible [] = Except.ok false ∧
    HomePage.isMenuButtonVisible [] = Except.ok false := by
  have h := probes_first_and_total []
  exact ⟨h.1, h.2.1, h.2.2.1, h.2.2.2.1, h.2.2.2.2.1, h.2.2.2.2.2.1,
    h.2.2.2.2.2.2.1, h.2.2.2.2.2.2.2 rfl⟩

/-- A second page with two visible buttons both accessibly named menu,
for the first-match comparison. -/
def c10Dom : List Element :=
  [{ role := "button", accName := "menu", visible := true,
     cssSelectors := [], inNav := false },
   { role := "button", accName := "menu", visible := true,
     cssSelectors := [], inNav := false }]

/-- C10: HomePage.isMenuButtonVisible evaluates its visibility check
twice and returns the second result; on any fixed page this equals
performing the check once on its unnarrowed locator, and there is a
page on which it differs from the first-matching-element check, so
unlike the other probes it does not restrict the locator to the first
match. -/
theorem isMenuButtonVisible_double_eval :
    (∀ dom : List Element, HomePage.isMenuButtonVisible dom =
      isVisibleLoc dom HomePage.menuButton) ∧
    (∃ dom : List Element, HomePage.isMenuButtonVisible dom ≠
      isVisibleLoc dom (Locator.first HomePage.menuButton)) := by
  constructor
  · intro dom
    unfold HomePage.isMenuButtonVisible
    cases hv : isVisibleLoc dom HomePage.menuButton with
    | error e => rfl
    | ok b => rfl
  · refine ⟨c10Dom, ?_⟩
    have e1 : HomePage.isMenuButtonVisible c10Dom =
        Except.error DriverError.strictViolation := rfl
    have e2 : isVisibleLoc c10Dom (Locator.first HomePage.menuButton) =
        Except.ok true := rfl
    rw [e1, e2]
    simp

end Creai


